import Mathlib

/-!
Verification development for the embedding-service store data plane
(app/services/store.py, app/models/store.py, app/api/stores.py).

The Python source is shallowly embedded: pure helpers become Lean
functions, database tables become explicit state values threaded through
the operations, the embeddings service becomes a function parameter
`E : String → Vec`, and code that can raise becomes `Except`.
Every operation additionally returns the list of calls it made to the
embeddings service, so that "no embedding is computed" style statements
can be expressed.  Python float vectors are modelled over ℚ.
-/

set_option autoImplicit false

/-- Embedding vectors (Python lists of floats, modelled over ℚ). -/
abbrev Vec := List ℚ

/-- Errors raised by the embedded code.  `invalidIdentifier` models the
`ValueError` raised by the identifier validators (the error the spec calls
`InvalidIdentifier`); `attributeError` models the Python `AttributeError`
raised when reading an attribute a pydantic model does not define;
`uniqueViolation` models a primary-key conflict on the stores catalog. -/
inductive PyError
  | invalidIdentifier (name : String)
  | attributeError (attr : String)
  | uniqueViolation (id : String)
deriving DecidableEq

/-- One call made to the embeddings service: `embed_query` for a single
text, `embed_documents` for a batch of texts. -/
inductive EmbedCall
  | query (text : String)
  | documents (texts : List String)
deriving DecidableEq

/-- Characters allowed in first position of the pattern
`[a-zA-Z_][a-zA-Z0-9_]*` used by both validators in store.py. -/
def isIdentStart (c : Char) : Bool :=
  (decide ('a' ≤ c) && decide (c ≤ 'z'))
    || (decide ('A' ≤ c) && decide (c ≤ 'Z'))
    || c == '_'

/-- Characters allowed after the first position of the identifier pattern. -/
def isIdentCont (c : Char) : Bool :=
  isIdentStart c || (decide ('0' ≤ c) && decide (c ≤ '9'))

/-- Full-string membership in the language of the regular expression
`^[A-Za-z_][A-Za-z0-9_]*$` under the standard reading of the anchors
(`$` is the very end of the string), on a list of characters. -/
def matchIdentL : List Char → Bool
  | [] => false
  | c :: cs => isIdentStart c && cs.all isIdentCont

/-- Full-string membership in the language of `^[A-Za-z_][A-Za-z0-9_]*$`
under the standard reading of the anchors. -/
def matchIdent (s : String) : Bool :=
  matchIdentL s.data

/-- Python `re.match(r"^[a-zA-Z_][a-zA-Z0-9_]*$", s)` truthiness, on a list
of characters.  In the Python re module, `$` matches at the end of the
string or just before a single newline at the end of the string, so the
code also accepts any accepted name followed by one trailing newline. -/
def pyMatchIdentL (cs : List Char) : Bool :=
  matchIdentL cs || (matchIdentL cs.dropLast && cs.getLast? == some '\n')

/-- Python `re.match(r"^[a-zA-Z_][a-zA-Z0-9_]*$", s)` truthiness. -/
def pyMatchIdent (s : String) : Bool :=
  pyMatchIdentL s.data

/-- Embeds `_validate_table_name` (store.py lines 19-23): return the name
unchanged when the Python regex match succeeds, raise otherwise. -/
def _validate_table_name (name : String) : Except PyError String :=
  if pyMatchIdent name then Except.ok name else Except.error (.invalidIdentifier name)

/-- Embeds `_validate_metadata_key` (store.py lines 267-271): same check as
`_validate_table_name`, raised on metadata filter keys. -/
def _validate_metadata_key (key : String) : Except PyError String :=
  if pyMatchIdent key then Except.ok key else Except.error (.invalidIdentifier key)

/-- One row of a store content table: `id SERIAL PRIMARY KEY, content TEXT
NOT NULL UNIQUE, embedding vector, metadata JSON`.  Metadata documents are
modelled as string-to-string association lists. -/
structure ContentRow where
  id : Nat
  content : String
  embedding : Vec
  metadata : Option (List (String × String))
deriving DecidableEq

/-- A store content table: its rows plus the next value of the SERIAL id
sequence (Postgres SERIAL starts at 1). -/
structure Table where
  rows : List ContentRow
  nextId : Nat
deriving DecidableEq

/-- Embeds `SELECT id FROM t WHERE content = $1` row lookup: the first row
carrying the given content (at most one exists under the UNIQUE
constraint). -/
def findByContent (tbl : Table) (c : String) : Option ContentRow :=
  tbl.rows.find? (fun r => r.content == c)

/-- Embeds the vector serialisation in store.py:
`"[" + ",".join(str(x) for x in embedding) + "]"`. -/
def vecToStr (v : Vec) : String :=
  "[" ++ String.intercalate "," (v.map toString) ++ "]"

/-- Embeds `query if query else content` (store.py lines 134 and 208):
Python truthiness makes both `None` and the empty string fall back to
`content`. -/
def textToEmbed (content : String) (q : Option String) : String :=
  match q with
  | some s => if s == "" then content else s
  | none => content

/-- Mirrors the pydantic response model `StoreEmbedResponse`. -/
structure StoreEmbedResponse where
  id : Nat
  content : String
  dimensions : Nat
  created : Bool
deriving DecidableEq

/-- Mirrors the pydantic response model `StoreBatchEmbedResponse`. -/
structure StoreBatchEmbedResponse where
  results : List StoreEmbedResponse
  total : Nat
  created : Nat
  skipped : Nat
deriving DecidableEq

/-- Mirrors the pydantic request model `StoreEmbedRequest`
(models/store.py lines 27-31).  Its only fields are `content` and
`query`: the model defines no `metadata` field. -/
structure EmbedItem where
  content : String
  query : Option String
deriving DecidableEq

/-- The declared field names of `StoreEmbedRequest` (models/store.py
lines 27-31). -/
def storeEmbedRequestFields : List String := ["content", "query"]

/-- The declared field names of `StoreQueryRequest` (models/store.py
lines 58-63). -/
def storeQueryRequestFields : List String := ["query", "limit", "distance"]

/-- Pydantic attribute access: reading a declared field succeeds, reading
any other attribute raises `AttributeError`. -/
def pydanticGetAttr (fields : List String) (attr : String) : Except PyError Unit :=
  if fields.contains attr then Except.ok () else Except.error (.attributeError attr)

/-- Embeds `embed_content` (store.py lines 107-159).  `E` is the
embeddings service bound to the store model.  Returns the response and
updated table inside `Except`, paired with the list of embeddings-service
calls that were issued. -/
def embed_content (E : String → Vec) (store_id : String) (tbl : Table)
    (content : String) (query : Option String)
    (metadata : Option (List (String × String))) :
    Except PyError (StoreEmbedResponse × Table) × List EmbedCall :=
  match _validate_table_name store_id with
  | .error e => (.error e, [])
  | .ok _ =>
    match findByContent tbl content with
    | some row =>
        (.ok ({ id := row.id, content := content, dimensions := 0, created := false }, tbl),
         [])
    | none =>
        let t := textToEmbed content query
        let emb := E t
        let newRow : ContentRow :=
          { id := tbl.nextId, content := content, embedding := emb, metadata := metadata }
        (.ok ({ id := tbl.nextId, content := content,
                dimensions := emb.length, created := true },
              { rows := tbl.rows ++ [newRow], nextId := tbl.nextId + 1 }),
         [.query t])

/-- The items of a batch whose content is not yet in the table (the
`new_items` list of store.py lines 183-196). -/
def newItemsOf (tbl : Table) (items : List EmbedItem) : List EmbedItem :=
  items.filter (fun it => (findByContent tbl it.content).isNone)

/-- The `created = false` responses appended for the batch items whose
content already exists (store.py lines 184-194), in input order. -/
def existingResultsOf (tbl : Table) (items : List EmbedItem) : List StoreEmbedResponse :=
  items.filterMap (fun it =>
    (findByContent tbl it.content).map
      (fun r => { id := r.id, content := it.content, dimensions := 0, created := false }))

/-- Embeds `embed_content_batch` (store.py lines 162-264).  After the
batched embeddings call, the first iteration of the insert loop evaluates
`item.metadata` (line 219); `StoreEmbedRequest` defines no `metadata`
field, so that attribute read raises `AttributeError` before any insert
is attempted. -/
def embed_content_batch (E : String → Vec) (store_id : String) (tbl : Table)
    (items : List EmbedItem) :
    Except PyError (StoreBatchEmbedResponse × Table) × List EmbedCall :=
  match _validate_table_name store_id with
  | .error e => (.error e, [])
  | .ok _ =>
    let skippedResults := existingResultsOf tbl items
    match newItemsOf tbl items with
    | [] =>
        (.ok ({ results := skippedResults, total := items.length,
                created := 0, skipped := skippedResults.length }, tbl),
         [])
    | news =>
        let texts := news.map (fun it => textToEmbed it.content it.query)
        (.error (.attributeError "metadata"), [.documents texts])

/-- Mirrors the pydantic request model `StoreQueryRequest`
(models/store.py lines 58-63): fields `query`, `limit` (default 10,
validated to lie in [1,100]) and `distance`; no `metadata` field. -/
structure StoreQueryRequest where
  query : String
  limit : Nat := 10
  distance : Option ℚ := none
deriving DecidableEq

/-- Mirrors the pydantic response model `StoreQueryResult`. -/
structure StoreQueryResult where
  id : Nat
  content : String
  distance : ℚ
deriving DecidableEq

/-- Mirrors the pydantic response model `StoreQueryResponse`. -/
structure StoreQueryResponse where
  query : String
  results : List StoreQueryResult
  count : Nat
deriving DecidableEq

/-- A bound statement parameter (the `$1`, `$2`, ... values of the asyncpg
call): a text value, a numeric value, or the integer limit. -/
inductive SqlParam
  | text (s : String)
  | num (q : ℚ)
  | int (n : Nat)
deriving DecidableEq

/-- The dynamically built statement of `query_store`, split into the
strings spliced into the statement text by f-string interpolation (the
table name and the validated metadata keys, in order) and the bound
parameters passed alongside the text (the serialised query vector, the
optional max distance, the filter values, and the limit, in `$n` order). -/
structure BuiltQuery where
  spliced : List String
  params : List SqlParam
deriving DecidableEq

/-- Comparison of query results by distance (the `ORDER BY distance`
sort key). -/
def qle (a b : StoreQueryResult) : Prop :=
  a.distance ≤ b.distance

instance : DecidableRel qle :=
  fun a b => inferInstanceAs (Decidable (a.distance ≤ b.distance))

instance : IsTotal StoreQueryResult qle :=
  ⟨fun a b => le_total a.distance b.distance⟩

instance : IsTrans StoreQueryResult qle :=
  ⟨fun _ _ _ hab hbc => le_trans hab hbc⟩

/-- Embeds the `embedding <=> $1::vector <= $2` predicate (store.py line
299): with no max distance every row passes, otherwise the row passes iff
its distance to the query vector is at most the bound.  `distq` maps a
stored vector to its distance from the query vector. -/
def distFilter (distq : Vec → ℚ) (max_distance : Option ℚ) (row : ContentRow) : Bool :=
  match max_distance with
  | none => true
  | some d => decide (distq row.embedding ≤ d)

/-- Embeds the `metadata ->> key = $n` predicates (store.py line 306): a
row passes iff for every filter pair its metadata document has that key
with exactly that text value; rows with NULL metadata never pass a
non-empty filter. -/
def rowMetaMatches (row : ContentRow) (filters : List (String × String)) : Bool :=
  filters.all (fun kv =>
    match row.metadata with
    | none => false
    | some m => m.lookup kv.1 == some kv.2)

/-- Embeds the metadata-filter loop of `query_store` (store.py lines
303-308): validate each key in order, collect the validated keys (spliced
into the predicate text) and the stringified values (appended as bound
parameters); the first invalid key aborts the whole operation. -/
def buildFilters : List (String × String) → Except PyError (List String × List SqlParam)
  | [] => Except.ok ([], [])
  | (k, v) :: rest =>
      match _validate_metadata_key k with
      | .error e => .error e
      | .ok vk =>
          match buildFilters rest with
          | .error e => .error e
          | .ok (ks, ps) => .ok (vk :: ks, SqlParam.text v :: ps)

/-- The relational semantics of the statement built by `query_store`:
keep the rows passing the distance bound and the metadata filters, score
each with its distance to the query vector, `ORDER BY distance` ascending
and `LIMIT` the result. -/
def execQuery (distq : Vec → ℚ) (tbl : Table) (limit : Nat) (max_distance : Option ℚ)
    (metadata_filters : List (String × String)) : List StoreQueryResult :=
  let kept := tbl.rows.filter (fun r =>
    distFilter distq max_distance r && rowMetaMatches r metadata_filters)
  let scored := kept.map (fun r =>
    ({ id := r.id, content := r.content, distance := distq r.embedding } : StoreQueryResult))
  (List.insertionSort qle scored).take limit

/-- The bound parameter contributed by the optional max-distance filter
(store.py lines 298-301): one numeric parameter when present, nothing
otherwise. -/
def mdParams (max_distance : Option ℚ) : List SqlParam :=
  match max_distance with
  | some d => [SqlParam.num d]
  | none => []

/-- Embeds `query_store` (store.py lines 274-341).  `E` is the embeddings
service, `dist` the backend cosine-distance operator `<=>`.  On success it
returns the response together with the built statement (its spliced
identifier fragments and bound parameters); the call log records the one
`embed_query` round trip, which happens before the filter keys are
validated. -/
def query_store (E : String → Vec) (dist : Vec → Vec → ℚ) (store_id : String)
    (tbl : Table) (query : String) (limit : Nat) (max_distance : Option ℚ)
    (metadata_filters : List (String × String)) :
    Except PyError (StoreQueryResponse × BuiltQuery) × List EmbedCall :=
  match _validate_table_name store_id with
  | .error e => (.error e, [])
  | .ok tn =>
    let emb := E query
    match buildFilters metadata_filters with
    | .error e => (.error e, [.query query])
    | .ok (ks, vparams) =>
        let params : List SqlParam :=
          SqlParam.text (vecToStr emb)
            :: (mdParams max_distance ++ vparams ++ [SqlParam.int limit])
        let bq : BuiltQuery := { spliced := tn :: ks, params := params }
        let top := execQuery (fun v => dist v emb) tbl limit max_distance metadata_filters
        (.ok ({ query := query, results := top, count := top.length }, bq),
         [.query query])

/-- Mirrors the pydantic request model `StoreCreate` (models/store.py
lines 4-9); the stores catalog rows carry the same three columns. -/
structure StoreCreate where
  id : String
  model : String
  description : Option String
deriving DecidableEq

/-- Mirrors the pydantic response model `StoreResponse`. -/
structure StoreResponse where
  id : String
  model : String
  description : Option String
deriving DecidableEq

/-- The database state seen by store creation: the stores catalog and the
set of existing per-store content tables (by name).  The connection runs
with no explicit transaction (pool.acquire only, stores.py line 48), so
under asyncpg each statement commits as soon as it executes. -/
structure DBState where
  catalog : List StoreCreate
  tables : List String
deriving DecidableEq

/-- Embeds `create_store` (store.py lines 26-49) with autocommit
statement semantics: first the catalog INSERT executes (and commits),
then the table name is validated, then the CREATE TABLE IF NOT EXISTS
executes.  A validation failure therefore leaves the already committed
catalog row behind. -/
def create_store (st : DBState) (store : StoreCreate) (dimensions : Nat) :
    Except PyError StoreResponse × DBState :=
  if st.catalog.any (fun r => r.id == store.id) then
    (.error (.uniqueViolation store.id), st)
  else
    let st1 : DBState := { st with catalog := st.catalog ++ [store] }
    match _validate_table_name store.id with
    | .error e => (.error e, st1)
    | .ok tn =>
        let _ := dimensions
        let st2 : DBState :=
          if st1.tables.contains tn then st1
          else { st1 with tables := st1.tables ++ [tn] }
        (.ok { id := store.id, model := store.model, description := store.description }, st2)

/-- The consistency invariant of §5 of the spec: every catalog row has its
content table and every content table has its catalog row. -/
def storesConsistent (st : DBState) : Prop :=
  (∀ r ∈ st.catalog, r.id ∈ st.tables) ∧ (∀ t ∈ st.tables, ∃ r ∈ st.catalog, r.id = t)

instance (st : DBState) : Decidable (storesConsistent st) :=
  inferInstanceAs (Decidable (And _ _))

/-- The outcome of one HTTP endpoint invocation: the response status and
whether the service-layer function was reached. -/
structure EndpointOutcome where
  status : Nat
  calledService : Bool
deriving DecidableEq

/-- Embeds `embed_content_endpoint` (api/stores.py lines 113-149): 404
when the store is unknown; otherwise the handler evaluates
`request.metadata` while building the arguments of `embed_content`
(line 135), and `StoreEmbedRequest` has no such field, so the read raises
`AttributeError`, which the `except Exception` branch turns into the
generic 500 response. -/
def embed_content_endpoint (E : String → Vec) (store : Option Table)
    (store_id : String) (req : EmbedItem) : EndpointOutcome × List EmbedCall :=
  match store with
  | none => ({ status := 404, calledService := false }, [])
  | some tbl =>
      match pydanticGetAttr storeEmbedRequestFields "metadata" with
      | .error _ => ({ status := 500, calledService := false }, [])
      | .ok _ =>
          match embed_content E store_id tbl req.content req.query none with
          | (.ok _, log) => ({ status := 200, calledService := true }, log)
          | (.error _, log) => ({ status := 500, calledService := true }, log)

/-- Embeds `query_store_endpoint` (api/stores.py lines 187-216): 404 when
the store is unknown; otherwise the handler evaluates `request.metadata`
(line 210), which `StoreQueryRequest` does not define, so the read raises
`AttributeError` and the `except Exception` branch answers with the
generic 500 response. -/
def query_store_endpoint (E : String → Vec) (dist : Vec → Vec → ℚ)
    (store : Option Table) (store_id : String) (req : StoreQueryRequest) :
    EndpointOutcome × List EmbedCall :=
  match store with
  | none => ({ status := 404, calledService := false }, [])
  | some tbl =>
      match pydanticGetAttr storeQueryRequestFields "metadata" with
      | .error _ => ({ status := 500, calledService := false }, [])
      | .ok _ =>
          match query_store E dist store_id tbl req.query req.limit req.distance [] with
          | (.ok _, log) => ({ status := 200, calledService := true }, log)
          | (.error _, log) => ({ status := 500, calledService := true }, log)

/-- A concrete embeddings service used to instantiate witnesses. -/
def testE : String → Vec := fun _ => []

/-- A concrete distance operator used to instantiate witnesses. -/
def testDist : Vec → Vec → ℚ := fun v _ => v.headD 0

/-- A concrete three-row content table used to instantiate witnesses. -/
def testTable : Table :=
  { rows := [⟨1, "a", [1], none⟩, ⟨2, "b", [3], none⟩, ⟨3, "c", [2], none⟩],
    nextId := 4 }

/-- The response of the concrete C7 witness query. -/
def testResp : StoreQueryResponse :=
  { query := "q", results := [⟨1, "a", 1⟩, ⟨3, "c", 2⟩], count := 2 }

/-- The built statement of the concrete C7 witness query. -/
def testBq : BuiltQuery :=
  { spliced := ["s"], params := [.text "[]", .num 2, .int 10] }

/-- The response of the concrete C2 witness query. -/
def testResp2 : StoreQueryResponse :=
  { query := "q", results := [], count := 0 }

/-- The built statement of the concrete C2 witness query. -/
def testBq2 : BuiltQuery :=
  { spliced := ["s", "k"], params := [.text "[]", .text "v", .int 5] }

/-- Characterisation of the Python match on a character list: it accepts
exactly the words of the regex language, plus those words with a single
trailing newline appended. -/
theorem pyMatchIdentL_iff (cs : List Char) :
    pyMatchIdentL cs = true ↔
      (matchIdentL cs = true ∨ ∃ ts, cs = ts ++ ['\n'] ∧ matchIdentL ts = true) := by
  unfold pyMatchIdentL
  rw [Bool.or_eq_true, Bool.and_eq_true]
  constructor
  · rintro (h | ⟨h1, h2⟩)
    · exact Or.inl h
    · refine Or.inr ⟨cs.dropLast, ?_, h1⟩
      have h2' : cs.getLast? = some '\n' := by simpa using h2
      have hne : cs ≠ [] := by
        intro h0
        rw [h0] at h2'
        exact Option.noConfusion h2'
      have hg : cs.getLast hne = '\n' := by
        have := List.getLast?_eq_getLast cs hne
        rw [this] at h2'
        exact Option.some.inj h2'
      have := List.dropLast_append_getLast hne
      rw [hg] at this
      exact this.symm
  · rintro (h | ⟨ts, rfl, ht⟩)
    · exact Or.inl h
    · refine Or.inr ⟨?_, ?_⟩
      · rw [List.dropLast_concat]
        exact ht
      · rw [List.getLast?_concat]
        rfl

/-- Characterisation of the Python match on strings. -/
theorem pyMatchIdent_iff (s : String) :
    pyMatchIdent s = true ↔
      (matchIdent s = true ∨ ∃ t : String, s = t ++ "\n" ∧ matchIdent t = true) := by
  unfold pyMatchIdent matchIdent
  rw [pyMatchIdentL_iff]
  constructor
  · rintro (h | ⟨ts, hts, ht⟩)
    · exact Or.inl h
    · refine Or.inr ⟨⟨ts⟩, ?_, ht⟩
      apply String.ext
      rw [String.data_append]
      exact hts
  · rintro (h | ⟨t, rfl, ht⟩)
    · exact Or.inl h
    · refine Or.inr ⟨t.data, ?_, ht⟩
      rw [String.data_append]

/-- C1 counterexample: the code validates table names and metadata keys
with Python re.match, whose `$` anchor also matches just before a single
trailing newline; the string consisting of the letter a followed by a
newline is therefore accepted unchanged, although it is not a word of the
regex language. -/
theorem validate_accepts_trailing_newline :
    _validate_table_name "a\n" = Except.ok "a\n" ∧ matchIdent "a\n" = false := by
  exact ⟨rfl, rfl⟩

/-- C1 (amended): identifier validation, used for table names and for
metadata keys, returns the name unchanged exactly for strings matching
the regex or matching it after removal of one trailing newline, and fails
with InvalidIdentifier for every other string. -/
theorem validate_identifier_amended (s : String) :
    _validate_metadata_key s = _validate_table_name s ∧
    ((matchIdent s = true ∨ ∃ t : String, s = t ++ "\n" ∧ matchIdent t = true) →
      _validate_table_name s = Except.ok s) ∧
    (¬(matchIdent s = true ∨ ∃ t : String, s = t ++ "\n" ∧ matchIdent t = true) →
      _validate_table_name s = Except.error (.invalidIdentifier s)) := by
  refine ⟨rfl, ?_, ?_⟩
  · intro h
    have hp := (pyMatchIdent_iff s).mpr h
    unfold _validate_table_name
    rw [if_pos hp]
  · intro h
    have hp : ¬ pyMatchIdent s = true := fun hb => h ((pyMatchIdent_iff s).mp hb)
    unfold _validate_table_name
    rw [if_neg hp]

/-- Witness for the amended C1 theorem at concrete inputs: a_1 is
accepted unchanged, and the SQL-injection shaped name is rejected with
InvalidIdentifier. -/
theorem validate_identifier_amended_witness :
    _validate_table_name "a_1" = Except.ok "a_1" ∧
    _validate_table_name "a;drop" = Except.error (.invalidIdentifier "a;drop") := by
  constructor
  · exact (validate_identifier_amended "a_1").2.1 (Or.inl (by decide))
  · refine (validate_identifier_amended "a;drop").2.2 ?_
    intro hc
    have h2 : pyMatchIdent "a;drop" = true := (pyMatchIdent_iff "a;drop").mpr hc
    exact absurd h2 (by decide)

/-- A name passing the Python match is returned unchanged by the table
name validator. -/
theorem validate_ok_of_pyMatch (s : String) (h : pyMatchIdent s = true) :
    _validate_table_name s = Except.ok s := by
  unfold _validate_table_name
  rw [if_pos h]

/-- Inversion of the table name validator. -/
theorem validate_ok_inv {s tn : String} (h : _validate_table_name s = Except.ok tn) :
    tn = s ∧ pyMatchIdent s = true := by
  unfold _validate_table_name at h
  split at h
  · exact ⟨(Except.ok.inj h).symm, by assumption⟩
  · exact Except.noConfusion h

/-- Searching an extended list starts over in the extension when the
original list had no hit. -/
theorem find?_append_of_none {α : Type} (p : α → Bool) (l₁ l₂ : List α)
    (h : l₁.find? p = none) : (l₁ ++ l₂).find? p = l₂.find? p := by
  rw [List.find?_append, h]
  rfl

/-- A freshly appended row is found by content lookup when the content
was absent before. -/
theorem findByContent_after_insert (tbl : Table) (c : String) (row : ContentRow)
    (hrow : row.content = c) (h : findByContent tbl c = none) :
    findByContent { rows := tbl.rows ++ [row], nextId := tbl.nextId + 1 } c = some row := by
  unfold findByContent at h ⊢
  rw [find?_append_of_none _ _ _ h]
  rw [List.find?_cons_of_pos]
  rw [hrow]
  exact beq_self_eq_true c

/-- C3 (code bug): single-item ingest of blank content is not rejected.
With empty content that is not yet stored, embed_content calls the
embeddings service on the empty string and inserts a row with
created = true; no EmptyContent failure exists in the code (and the
endpoint branch answering 400 for a None result is unreachable, since
embed_content never returns None). -/
theorem embed_blank_content_not_rejected :
    embed_content testE "s" { rows := [], nextId := 1 } "" none none =
      (Except.ok ({ id := 1, content := "", dimensions := 0, created := true },
                  { rows := [{ id := 1, content := "", embedding := [], metadata := none }],
                    nextId := 2 }),
       [EmbedCall.query ""]) := rfl

/-- C4: ingesting the same content twice (under a valid store id) first
inserts a fresh row and answers created = true with the new id, then
finds the row and answers created = false with the same id and
dimensions 0, making no embeddings-service call and leaving the table
unchanged. -/
theorem embed_twice_same_id (E : String → Vec) (sid : String) (tbl : Table)
    (c : String) (q q2 : Option String) (md md2 : Option (List (String × String)))
    (hs : pyMatchIdent sid = true) (hm : findByContent tbl c = none) :
    embed_content E sid tbl c q md =
      (Except.ok ({ id := tbl.nextId, content := c,
                    dimensions := (E (textToEmbed c q)).length, created := true },
                  { rows := tbl.rows ++ [{ id := tbl.nextId, content := c,
                                           embedding := E (textToEmbed c q), metadata := md }],
                    nextId := tbl.nextId + 1 }),
       [EmbedCall.query (textToEmbed c q)]) ∧
    embed_content E sid
        { rows := tbl.rows ++ [{ id := tbl.nextId, content := c,
                                 embedding := E (textToEmbed c q), metadata := md }],
          nextId := tbl.nextId + 1 } c q2 md2 =
      (Except.ok ({ id := tbl.nextId, content := c, dimensions := 0, created := false },
                  { rows := tbl.rows ++ [{ id := tbl.nextId, content := c,
                                           embedding := E (textToEmbed c q), metadata := md }],
                    nextId := tbl.nextId + 1 }),
       []) := by
  constructor
  · unfold embed_content
    rw [validate_ok_of_pyMatch sid hs]
    rw [hm]
  · have hfind := findByContent_after_insert tbl c
      { id := tbl.nextId, content := c, embedding := E (textToEmbed c q), metadata := md }
      rfl hm
    unfold embed_content
    rw [validate_ok_of_pyMatch sid hs]
    rw [hfind]

/-- Witness for C4 at a concrete input: ingesting hello twice into an
empty store named s. -/
theorem embed_twice_same_id_witness :
    embed_content testE "s" { rows := [], nextId := 1 } "hello" none none =
      (Except.ok ({ id := 1, content := "hello", dimensions := 0, created := true },
                  { rows := [{ id := 1, content := "hello", embedding := [], metadata := none }],
                    nextId := 2 }),
       [EmbedCall.query "hello"]) ∧
    embed_content testE "s"
        { rows := [{ id := 1, content := "hello", embedding := [], metadata := none }],
          nextId := 2 } "hello" none none =
      (Except.ok ({ id := 1, content := "hello", dimensions := 0, created := false },
                  { rows := [{ id := 1, content := "hello", embedding := [], metadata := none }],
                    nextId := 2 }),
       []) :=
  embed_twice_same_id testE "s" { rows := [], nextId := 1 } "hello" none none none none
    (by decide) rfl

/-- C9 counterexample: with a supplied but empty query text, Python
truthiness makes the code embed the content instead.  Here query_text is
supplied as the empty string, the content is the letter a, and the one
embeddings-service call carries the content, not the supplied query
text. -/
theorem embed_empty_query_text_uses_content :
    (embed_content testE "s" { rows := [], nextId := 1 } "a" (some "") none).2 =
      [EmbedCall.query "a"] ∧
    textToEmbed "a" (some "") = "a" ∧ ("a" : String) ≠ "" := by
  exact ⟨rfl, rfl, by decide⟩

/-- C9 (amended): for content not yet stored, the text sent to the
embeddings service is query_text whenever it is supplied and non-empty,
and content otherwise; this selection rule is applied by single ingest
and, item by item, to every new item of a batch ingest (whose one
embed_documents round trip happens before the failing metadata attribute
read). -/
theorem embed_texts_amended (E : String → Vec) (sid : String) (tbl : Table)
    (c : String) (s : String) (q : Option String)
    (md : Option (List (String × String))) (items : List EmbedItem)
    (hs : pyMatchIdent sid = true) :
    (findByContent tbl c = none →
      (embed_content E sid tbl c q md).2 = [EmbedCall.query (textToEmbed c q)]) ∧
    textToEmbed c (some s) = (if s = "" then c else s) ∧
    textToEmbed c none = c ∧
    (newItemsOf tbl items ≠ [] →
      (embed_content_batch E sid tbl items).2 =
        [EmbedCall.documents ((newItemsOf tbl items).map
          (fun it => textToEmbed it.content it.query))]) := by
  refine ⟨?_, ?_, rfl, ?_⟩
  · intro hm
    unfold embed_content
    rw [validate_ok_of_pyMatch sid hs]
    rw [hm]
  · by_cases h : s = ""
    · subst h
      rfl
    · simp [textToEmbed, h]
  · intro hne
    unfold embed_content_batch
    rw [validate_ok_of_pyMatch sid hs]
    cases hh : newItemsOf tbl items with
    | nil => exact absurd hh hne
    | cons a l => rfl

/-- Witness for the amended C9 theorem at a concrete input: single and
batch ingest of content hi with non-empty query text qq both send qq to
the embeddings service. -/
theorem embed_texts_amended_witness :
    (embed_content testE "s" { rows := [], nextId := 1 } "hi" (some "qq") none).2 =
      [EmbedCall.query (textToEmbed "hi" (some "qq"))] ∧
    (embed_content_batch testE "s" { rows := [], nextId := 1 }
        [{ content := "hi", query := some "qq" }]).2 =
      [EmbedCall.documents
        ((newItemsOf { rows := [], nextId := 1 } [{ content := "hi", query := some "qq" }]).map
          (fun it => textToEmbed it.content it.query))] :=
  ⟨(embed_texts_amended testE "s" { rows := [], nextId := 1 } "hi" "qq" (some "qq") none
      [{ content := "hi", query := some "qq" }] (by decide)).1 rfl,
   (embed_texts_amended testE "s" { rows := [], nextId := 1 } "hi" "qq" (some "qq") none
      [{ content := "hi", query := some "qq" }] (by decide)).2.2.2 (by decide)⟩

/-- C5 (code bug): a batch with a new item returns no counters at all.
The insert loop evaluates item.metadata, a field StoreEmbedRequest does
not define, so ingesting the single new item a into an empty store raises
AttributeError right after the embed_documents round trip, and no
response with total, created and skipped is produced. -/
theorem batch_new_item_attribute_error :
    embed_content_batch testE "s" { rows := [], nextId := 1 }
        [{ content := "a", query := none }] =
      (Except.error (.attributeError "metadata"), [EmbedCall.documents ["a"]]) := rfl

/-- C6 (code bug): the conflict-tolerant insert and its re-read are dead
code.  A batch holding the same new content twice, which would exercise
the ON CONFLICT DO NOTHING path on its second insert, instead fails as a
whole with AttributeError at the metadata attribute read that precedes
the first insert. -/
theorem batch_race_branch_unreached :
    embed_content_batch testE "s" { rows := [], nextId := 1 }
        [{ content := "a", query := none }, { content := "a", query := none }] =
      (Except.error (.attributeError "metadata"), [EmbedCall.documents ["a", "a"]]) := rfl

/-- C8 (code bug): store creation is not atomic.  Creating a store whose
id fails table-name validation first commits the catalog INSERT (no
transaction is opened), then raises on validation, leaving a database
where the catalog references a store with no content table: the
consistency invariant holds before the call and is broken after it. -/
theorem create_store_not_atomic :
    create_store { catalog := [], tables := [] }
        { id := "a;drop", model := "m", description := none } 3 =
      (Except.error (.invalidIdentifier "a;drop"),
       { catalog := [{ id := "a;drop", model := "m", description := none }], tables := [] }) ∧
    storesConsistent { catalog := [], tables := [] } ∧
    ¬ storesConsistent
        { catalog := [{ id := "a;drop", model := "m", description := none }], tables := [] } := by
  refine ⟨rfl, by decide, by decide⟩

/-- C10: both the single-item embed endpoint and the query endpoint read
the metadata attribute from request models that do not define it, so for
every request against an existing store they answer the generic 500
without reaching the service layer, and no request whatsoever makes them
reach the service layer. -/
theorem endpoints_metadata_attribute_500 (E : String → Vec) (dist : Vec → Vec → ℚ)
    (tbl : Table) (sid : String) (ereq : EmbedItem) (qreq : StoreQueryRequest)
    (st st2 : Option Table) :
    embed_content_endpoint E (some tbl) sid ereq =
      ({ status := 500, calledService := false }, []) ∧
    query_store_endpoint E dist (some tbl) sid qreq =
      ({ status := 500, calledService := false }, []) ∧
    (embed_content_endpoint E st sid ereq).1.calledService = false ∧
    (query_store_endpoint E dist st2 sid qreq).1.calledService = false := by
  refine ⟨rfl, rfl, ?_, ?_⟩
  · cases st <;> rfl
  · cases st2 <;> rfl

/-- The executed query is sorted by non-decreasing distance. -/
theorem execQuery_sorted (distq : Vec → ℚ) (tbl : Table) (limit : Nat)
    (md : Option ℚ) (f : List (String × String)) :
    List.Sorted qle (execQuery distq tbl limit md f) := by
  unfold execQuery
  exact (List.sorted_insertionSort qle _).sublist (List.take_sublist _ _)

/-- The executed query returns at most limit rows. -/
theorem execQuery_length_le (distq : Vec → ℚ) (tbl : Table) (limit : Nat)
    (md : Option ℚ) (f : List (String × String)) :
    (execQuery distq tbl limit md f).length ≤ limit := by
  unfold execQuery
  exact List.length_take_le _ _

/-- Every returned row of the executed query respects the distance
bound when one is given. -/
theorem execQuery_maxdist (distq : Vec → ℚ) (tbl : Table) (limit : Nat)
    (d : ℚ) (f : List (String × String)) (r : StoreQueryResult)
    (hr : r ∈ execQuery distq tbl limit (some d) f) : r.distance ≤ d := by
  unfold execQuery at hr
  have hr1 := List.take_subset _ _ hr
  rw [List.mem_insertionSort] at hr1
  rcases List.mem_map.mp hr1 with ⟨row, hrow, rfl⟩
  rcases List.mem_filter.mp hrow with ⟨-, hcond⟩
  rw [Bool.and_eq_true] at hcond
  have hd := hcond.1
  unfold distFilter at hd
  exact of_decide_eq_true hd

/-- Inversion of a successful query_store call: the store id passed the
Python match, the filters built successfully, the results are the
executed relational query, and the built statement has the claimed
shape. -/
theorem query_store_ok_inv (E : String → Vec) (dist : Vec → Vec → ℚ)
    (sid : String) (tbl : Table) (q : String) (limit : Nat) (md : Option ℚ)
    (f : List (String × String)) (resp : StoreQueryResponse) (bq : BuiltQuery)
    (log : List EmbedCall)
    (h : query_store E dist sid tbl q limit md f = (.ok (resp, bq), log)) :
    resp.results = execQuery (fun v => dist v (E q)) tbl limit md f ∧
    pyMatchIdent sid = true ∧
    ∃ ks ps, buildFilters f = .ok (ks, ps) ∧
      bq = { spliced := sid :: ks,
             params := SqlParam.text (vecToStr (E q))
               :: (mdParams md ++ ps ++ [SqlParam.int limit]) } := by
  unfold query_store at h
  cases hv : _validate_table_name sid with
  | error e =>
      rw [hv] at h
      simp at h
  | ok tn =>
      obtain ⟨htn, hpm⟩ := validate_ok_inv hv
      subst htn
      rw [hv] at h
      cases hb : buildFilters f with
      | error e =>
          rw [hb] at h
          simp at h
      | ok kp =>
          obtain ⟨ks, ps⟩ := kp
          rw [hb] at h
          simp only [Prod.mk.injEq, Except.ok.injEq] at h
          obtain ⟨⟨h1, h2⟩, -⟩ := h
          refine ⟨?_, hpm, ks, ps, rfl, h2.symm⟩
          rw [← h1]

/-- Inversion of a successful filter build: every collected key passed
the Python match, and the value parameters are exactly the filter values
in order. -/
theorem buildFilters_ok_inv (f : List (String × String)) (ks : List String)
    (ps : List SqlParam) (h : buildFilters f = .ok (ks, ps)) :
    (∀ k ∈ ks, pyMatchIdent k = true) ∧
    ps = f.map (fun kv => SqlParam.text kv.2) := by
  induction f generalizing ks ps with
  | nil =>
      simp only [buildFilters, Except.ok.injEq, Prod.mk.injEq] at h
      obtain ⟨h1, h2⟩ := h
      subst h1
      subst h2
      exact ⟨by intro k hk; exact absurd hk (List.not_mem_nil k), rfl⟩
  | cons kv rest ih =>
      obtain ⟨k, v⟩ := kv
      unfold buildFilters at h
      cases hk : _validate_metadata_key k with
      | error e =>
          rw [hk] at h
          simp at h
      | ok vk =>
          rw [hk] at h
          cases hr : buildFilters rest with
          | error e =>
              rw [hr] at h
              simp at h
          | ok kp =>
              obtain ⟨ks0, ps0⟩ := kp
              rw [hr] at h
              simp only [Except.ok.injEq, Prod.mk.injEq] at h
              obtain ⟨hks, hps⟩ := h
              have hvk : vk = k ∧ pyMatchIdent k = true := by
                unfold _validate_metadata_key at hk
                split at hk
                · exact ⟨(Except.ok.inj hk).symm, by assumption⟩
                · exact Except.noConfusion hk
              obtain ⟨ih1, ih2⟩ := ih ks0 ps0 hr
              subst hks
              subst hps
              constructor
              · intro x hx
                rcases List.mem_cons.mp hx with rfl | hx
                · rw [hvk.1]
                  exact hvk.2
                · exact ih1 x hx
              · simp [ih2]

/-- C7: every successful query invocation (with the request-validated
limit, an integer in [1,100] defaulting to 10) returns its results in
non-decreasing distance order, returns at most limit results, and, when a
max distance is supplied, only results within that distance. -/
theorem query_results_ordered_capped (E : String → Vec) (dist : Vec → Vec → ℚ)
    (sid : String) (tbl : Table) (q : String) (limit : Nat) (md : Option ℚ)
    (f : List (String × String)) (resp : StoreQueryResponse) (bq : BuiltQuery)
    (log : List EmbedCall)
    (hlim : 1 ≤ limit ∧ limit ≤ 100)
    (h : query_store E dist sid tbl q limit md f = (.ok (resp, bq), log)) :
    List.Sorted qle resp.results ∧
    resp.results.length ≤ limit ∧
    (∀ d : ℚ, md = some d → ∀ r ∈ resp.results, r.distance ≤ d) := by
  obtain ⟨hres, -, -⟩ := query_store_ok_inv E dist sid tbl q limit md f resp bq log h
  rw [hres]
  refine ⟨execQuery_sorted _ _ _ _ _, execQuery_length_le _ _ _ _ _, ?_⟩
  rintro d rfl r hr
  exact execQuery_maxdist _ _ _ _ _ r hr

/-- Witness for C7 at a concrete input: querying the three-row test store
with limit 10 and max distance 2. -/
theorem query_results_ordered_capped_witness :
    List.Sorted qle testResp.results ∧
    testResp.results.length ≤ 10 ∧
    (∀ d : ℚ, (some (2 : ℚ) : Option ℚ) = some d → ∀ r ∈ testResp.results, r.distance ≤ d) :=
  query_results_ordered_capped testE testDist "s" testTable "q" 10 (some 2) []
    testResp testBq [EmbedCall.query "q"] (by decide) rfl

/-- C2 (amended): on every successful query, each string spliced into the
statement text (the table name and the metadata filter keys) passed the
Python re.match check, that is, it matches the identifier regex possibly
followed by one trailing newline; the filter values, the serialised query
embedding and the limit are exactly the bound parameters, never spliced;
and any invalid key aborts the operation with InvalidIdentifier before
the statement is issued. -/
theorem query_injection_safety (E : String → Vec) (dist : Vec → Vec → ℚ)
    (sid : String) (tbl : Table) (q : String) (limit : Nat) (md : Option ℚ)
    (f : List (String × String)) (resp : StoreQueryResponse) (bq : BuiltQuery)
    (log : List EmbedCall)
    (h : query_store E dist sid tbl q limit md f = (.ok (resp, bq), log)) :
    (∀ x ∈ bq.spliced, pyMatchIdent x = true) ∧
    bq.params = SqlParam.text (vecToStr (E q))
        :: (mdParams md ++ f.map (fun kv => SqlParam.text kv.2) ++ [SqlParam.int limit]) := by
  obtain ⟨-, hpm, ks, ps, hbf, hbq⟩ := query_store_ok_inv E dist sid tbl q limit md f resp bq log h
  obtain ⟨hks, hps⟩ := buildFilters_ok_inv f ks ps hbf
  subst hbq
  constructor
  · intro x hx
    rcases List.mem_cons.mp hx with rfl | hx
    · exact hpm
    · exact hks x hx
  · rw [hps]

/-- Witness for the amended C2 theorem at a concrete input: a query with
one metadata filter on the test store. -/
theorem query_injection_safety_witness :
    (∀ x ∈ testBq2.spliced, pyMatchIdent x = true) ∧
    testBq2.params = SqlParam.text (vecToStr (testE "q"))
        :: (mdParams none ++ ([("k", "v")].map (fun kv => SqlParam.text kv.2))
            ++ [SqlParam.int 5]) :=
  query_injection_safety testE testDist "s" testTable "q" 5 none [("k", "v")]
    testResp2 testBq2 [EmbedCall.query "q"] rfl

/-- C2 counterexample: a metadata filter key consisting of the letter k
followed by a newline passes the Python re.match check, so the query
succeeds and splices that key into the statement text, although the key
is not a word of the identifier regex language. -/
theorem query_newline_key_spliced :
    query_store testE testDist "s" testTable "q" 10 none [("k\n", "v")] =
      (Except.ok ({ query := "q", results := [], count := 0 },
                  { spliced := ["s", "k\n"],
                    params := [SqlParam.text "[]", SqlParam.text "v", SqlParam.int 10] }),
       [EmbedCall.query "q"]) ∧
    matchIdent "k\n" = false := ⟨rfl, rfl⟩
